import Mathlib

/-
Verification development for the swr-calculator simulation engine
(src/simulation.cpp).  The C++ code is shallowly embedded: `float`
arithmetic is modelled with exact rationals (ℚ), `size_t` with ℕ
(truncated subtraction), per-asset vectors with functions `ℕ → ℚ`
indexed below `number_of_assets`, and the monthly data series with
functions from a linear month index to ℚ.
-/

/-- The four rebalancing policies (`swr::Rebalancing`). -/
inductive Rebalancing where
  | NONE
  | MONTHLY
  | YEARLY
  | THRESHOLD
deriving DecidableEq, Repr

/-- Constant `monthly_rebalancing_cost` — the value `0.005` from simulation.cpp;
the source comment says the costs are "In percent". -/
def monthly_rebalancing_cost : ℚ := 5 / 1000

/-- Constant `yearly_rebalancing_cost` — the value `0.01` (in percent). -/
def yearly_rebalancing_cost : ℚ := 1 / 100

/-- Constant `threshold_rebalancing_cost` — the value `0.01` (in percent). -/
def threshold_rebalancing_cost : ℚ := 1 / 100

/-- Function `swr::parse_rebalance`: "none"/"monthly"/"yearly" map to their
variants; every other string falls through to THRESHOLD. -/
def parse_rebalance (str : String) : Rebalancing :=
  if str = "none" then Rebalancing.NONE
  else if str = "monthly" then Rebalancing.MONTHLY
  else if str = "yearly" then Rebalancing.YEARLY
  else Rebalancing.THRESHOLD

/-- Formatter `swr::operator<<` on Rebalancing.  The C++ switch covers all four
enumerators, so the trailing "Unknown rebalancing" return is reachable
only for an out-of-range enum value, which the Lean inductive cannot
represent. -/
def rebalance_to_string : Rebalancing → String
  | Rebalancing.NONE => "none"
  | Rebalancing.MONTHLY => "monthly"
  | Rebalancing.YEARLY => "yearly"
  | Rebalancing.THRESHOLD => "threshold"

/-- Linear index of month `m` (1-based) of year `y` in a contiguous
monthly series. -/
def monthIdx (y m : ℕ) : ℕ := 12 * y + (m - 1)

/-- Modelled from the spec: `swr::get_start` is declared in
simulation.hpp, which is not under src/.  Per spec §4.1 it returns a
cursor positioned at the data point for the requested (year, month) in a
chronologically ordered, contiguous monthly series; advancing the cursor
yields the next chronological point.  We represent a series by its
values as a function of the linear month index, so the cursor is that
index. -/
def get_start_index (y m : ℕ) : ℕ := monthIdx y m

/-- Where simulation.cpp positions the return and inflation cursors for
a trial starting at (current_year, current_month):
`get_start(series, current_year, (current_month % 12) + 1)`. -/
def trial_cursor_start (current_year current_month : ℕ) : ℕ :=
  get_start_index current_year (current_month % 12 + 1)

/-- Trial `end_year`:
`current_year + (current_month - 1 + months - 1) / 12` with
`months = years * 12`. -/
def trial_end_year (current_year current_month years : ℕ) : ℕ :=
  current_year + (current_month - 1 + years * 12 - 1) / 12

/-- Trial `end_month`:
`1 + ((current_month - 1) + (months - 1) % 12) % 12`. -/
def trial_end_month (current_month years : ℕ) : ℕ :=
  1 + ((current_month - 1) + (years * 12 - 1) % 12) % 12

/-- One iteration of the trial's nested year/month loop: either a
monthly step at (y, m), or the block that runs after the inner month
loop of calendar year y (yearly rebalancing and, in annual withdrawal
mode, the full annual withdrawal). -/
inductive Event where
  | step (y m : ℕ)
  | yearEnd (y : ℕ)
deriving DecidableEq, Repr

/-- Whether an event is a monthly step. -/
def Event.isStep : Event → Bool
  | Event.step _ _ => true
  | Event.yearEnd _ => false

/-- Whether an event is a year-boundary block. -/
def Event.isYearEnd : Event → Bool
  | Event.step _ _ => false
  | Event.yearEnd _ => true

/-- First month iterated in calendar year `y` of a trial:
`(y == current_year ? current_month : 1)`. -/
def seg_first (current_year current_month y : ℕ) : ℕ :=
  if y = current_year then current_month else 1

/-- Last month iterated in calendar year `y` of a trial:
`(y == end_year ? end_month : 12)`. -/
def seg_last (end_yr end_mo y : ℕ) : ℕ :=
  if y = end_yr then end_mo else 12

/-- The events contributed by calendar year `y` of a trial: its month
steps followed by the year-boundary block. -/
def year_events (current_year current_month end_yr end_mo y : ℕ) : List Event :=
  (List.range' (seg_first current_year current_month y)
      (seg_last end_yr end_mo y + 1 - seg_first current_year current_month y)).map
    (Event.step y) ++ [Event.yearEnd y]

/-- The full event sequence of one trial, mirroring the nested
`for (y = current_year; y <= end_year; ++y)` /
`for (m = ...; m <= ...; ++m)` loop of simulation.cpp. -/
def trial_events (current_year current_month years : ℕ) : List Event :=
  (List.range' current_year
      (trial_end_year current_year current_month years + 1 - current_year)).flatMap
    (year_events current_year current_month
      (trial_end_year current_year current_month years)
      (trial_end_month current_month years))

/-- Per-trial mutable state: the per-asset current values, the per-asset
return cursors, the inflation cursor, and the current (inflation
compounded) annual withdrawal amount. -/
structure TrialState where
  current_values : ℕ → ℚ
  rets : ℕ → ℕ
  infl : ℕ
  withdrawal : ℚ

/-- Total `std::accumulate(current_values.begin(), current_values.end(), 0.0f)`
over the `number_of_assets` entries. -/
def total_value (n : ℕ) (v : ℕ → ℚ) : ℚ := ∑ i in Finset.range n, v i

/-- The fee-paying loop `current_values[i] *= 1.0f - cost / 100.0f`
(the costs are stored in percent). -/
def pay_fees (cost : ℚ) (v : ℕ → ℚ) : ℕ → ℚ :=
  fun i => v i * (1 - cost / 100)

/-- The reset loop `current_values[i] = total_value * (portfolio[i].allocation / 100.0f)`:
it overwrites every per-asset value. -/
def reset_values (portfolio : ℕ → ℚ) (total : ℚ) : ℕ → ℚ :=
  fun i => total * (portfolio i / 100)

/-- One asset's deviation test in the THRESHOLD block:
`std::abs((portfolio[i].allocation / 100.0f) - current_values[i] / total_value) >= threshold`.
When `total = 0` the C++ float division yields NaN (for `v = 0`, making
the comparison false) or ±infinity (for `v ≠ 0`, making it true for any
finite nonnegative threshold); the conditional reproduces that behaviour
in exact arithmetic. -/
def asset_dev_check (threshold w total v : ℚ) : Bool :=
  if total = 0 then decide (v ≠ 0)
  else decide (threshold ≤ |w / 100 - v / total|)

/-- The trigger of the THRESHOLD block: any asset (below `n`) whose
deviation from its target weight reaches the threshold (the C++ loop
breaks at the first such asset). -/
def threshold_trigger (n : ℕ) (portfolio : ℕ → ℚ) (threshold total : ℚ)
    (v : ℕ → ℚ) : Bool :=
  (List.range n).any fun i => asset_dev_check threshold (portfolio i) total (v i)

/-- The withdrawal loop
`value = std::max(0.0f, value - (value / total_value) * amount)`. -/
def withdraw_values (total amount : ℚ) (v : ℕ → ℚ) : ℕ → ℚ :=
  fun i => max 0 (v i - v i / total * amount)

/-- The body of the inner month loop of simulation.cpp, in source order:
returns (advancing the return cursors), the MONTHLY block, the THRESHOLD
block, inflation compounding of the withdrawal (advancing the inflation
cursor), and the monthly withdrawal.  In the THRESHOLD block the fee
multiplication `pay_fees` is immediately overwritten by the reset loop,
which uses the total computed before the fees and writes every index, so
the net effect of a triggered threshold rebalance is exactly
`reset_values` with the pre-fee total. -/
def month_step (n : ℕ) (portfolio inflation_data : ℕ → ℚ) (values : ℕ → ℕ → ℚ)
    (rebalance : Rebalancing) (threshold : ℚ) (monthly_wr : Bool)
    (s : TrialState) : TrialState :=
  let v0 : ℕ → ℚ := fun i => s.current_values i * values i (s.rets i)
  let v1 : ℕ → ℚ :=
    if rebalance = Rebalancing.MONTHLY then
      reset_values portfolio (total_value n (pay_fees monthly_rebalancing_cost v0))
    else v0
  let v2 : ℕ → ℚ :=
    if rebalance = Rebalancing.THRESHOLD then
      if threshold_trigger n portfolio threshold (total_value n v1) v1 then
        reset_values portfolio (total_value n v1)
      else v1
    else v1
  let w1 : ℚ := s.withdrawal * inflation_data s.infl
  let v3 : ℕ → ℚ :=
    if monthly_wr then withdraw_values (total_value n v2) (w1 / 12) v2 else v2
  { current_values := v3
    rets := fun i => s.rets i + 1
    infl := s.infl + 1
    withdrawal := w1 }

/-- The block after the inner month loop: the YEARLY rebalancing (fees,
then reset using the post-fee total) and, when monthly withdrawal is not
active, the full annual withdrawal. -/
def year_end_step (n : ℕ) (portfolio : ℕ → ℚ) (rebalance : Rebalancing)
    (monthly_wr : Bool) (s : TrialState) : TrialState :=
  let v1 : ℕ → ℚ :=
    if rebalance = Rebalancing.YEARLY then
      reset_values portfolio (total_value n (pay_fees yearly_rebalancing_cost s.current_values))
    else s.current_values
  let v2 : ℕ → ℚ :=
    if monthly_wr then v1 else withdraw_values (total_value n v1) s.withdrawal v1
  { s with current_values := v2 }

/-- Dispatch one loop event to its step function. -/
def do_event (n : ℕ) (portfolio inflation_data : ℕ → ℚ) (values : ℕ → ℕ → ℚ)
    (rebalance : Rebalancing) (threshold : ℚ) (monthly_wr : Bool)
    (s : TrialState) (e : Event) : TrialState :=
  match e with
  | Event.step _ _ =>
      month_step n portfolio inflation_data values rebalance threshold monthly_wr s
  | Event.yearEnd _ =>
      year_end_step n portfolio rebalance monthly_wr s

/-- A trial's initial state: each asset starts at
`1000 * (allocation / 100)`, the return and inflation cursors start at
`get_start(..., current_year, (current_month % 12) + 1)`, and the annual
withdrawal is `1000 * wr / 100`. -/
def init_state (portfolio : ℕ → ℚ) (wr : ℚ) (current_year current_month : ℕ) :
    TrialState :=
  { current_values := fun i => 1000 * (portfolio i / 100)
    rets := fun _ => trial_cursor_start current_year current_month
    infl := trial_cursor_start current_year current_month
    withdrawal := 1000 * wr / 100 }

/-- One rolling-window trial: fold the trial's event sequence from the
initial state and sum the remaining asset values. -/
def run_trial (n : ℕ) (portfolio inflation_data : ℕ → ℚ) (values : ℕ → ℕ → ℚ)
    (years : ℕ) (wr : ℚ) (rebalance : Rebalancing) (threshold : ℚ)
    (monthly_wr : Bool) (current_year current_month : ℕ) : ℚ :=
  total_value n
    ((trial_events current_year current_month years).foldl
      (do_event n portfolio inflation_data values rebalance threshold monthly_wr)
      (init_state portfolio wr current_year current_month)).current_values

/-- The terminal values of all trials, one per start month, for
`current_year` from `start_year` to `end_year - years` and
`current_month` from 1 to 12. -/
def terminal_values_list (n : ℕ) (portfolio inflation_data : ℕ → ℚ)
    (values : ℕ → ℕ → ℚ) (years : ℕ) (wr : ℚ) (start_year end_year : ℕ)
    (monthly_wr : Bool) (rebalance : Rebalancing) (threshold : ℚ) : List ℚ :=
  (List.range' start_year (end_year - years + 1 - start_year)).flatMap fun cy =>
    (List.range' 1 12).map fun cm =>
      run_trial n portfolio inflation_data values years wr rebalance threshold
        monthly_wr cy cm

/-- Modelled from the spec for the field layout: `swr::results` is
declared in simulation.hpp, which is not under src/.  Its fields are the
ones simulation.cpp assigns; the four terminal-value statistics are
Options because the C++ computation indexes the sorted vector without a
bounds check (spec §7: out-of-range access is undefined behaviour). -/
structure results where
  successes : ℕ := 0
  failures : ℕ := 0
  success_rate : ℚ := 0
  tv_median : Option ℚ := none
  tv_minimum : Option ℚ := none
  tv_maximum : Option ℚ := none
  tv_average : Option ℚ := none
deriving DecidableEq, Repr

/-- Insertion of one element into a sorted list (ascending). -/
def insort (x : ℚ) : List ℚ → List ℚ
  | [] => [x]
  | y :: ys => if x ≤ y then x :: y :: ys else y :: insort x ys

/-- Ascending sort, modelling `std::sort` on the terminal values. -/
def isort : List ℚ → List ℚ
  | [] => []
  | x :: xs => insort x (isort xs)

/-- Member `swr::results::compute_terminal_values`: sort ascending, read the
median at index `size / 2 + 1`, the minimum at `front()`, the maximum at
`back()`, and the average as sum divided by size. -/
def compute_terminal_values (terminal_values : List ℚ) (res : results) : results :=
  let s := isort terminal_values
  { res with
    tv_median := s[s.length / 2 + 1]?
    tv_minimum := s.head?
    tv_maximum := s.getLast?
    tv_average :=
      if s.length = 0 then none else some (s.sum / (s.length : ℚ)) }

/-- Function `swr::simulation`: run every trial, classify each terminal value as
a success (`> 0`) or failure, compute the success rate and the
terminal-value statistics. -/
def simulation (n : ℕ) (portfolio inflation_data : ℕ → ℚ) (values : ℕ → ℕ → ℚ)
    (years : ℕ) (wr : ℚ) (start_year end_year : ℕ) (monthly_wr : Bool)
    (rebalance : Rebalancing) (threshold : ℚ) : results :=
  let terminal_values :=
    terminal_values_list n portfolio inflation_data values years wr start_year
      end_year monthly_wr rebalance threshold
  let succ := terminal_values.countP fun v => decide (0 < v)
  let fail := terminal_values.countP fun v => !decide (0 < v)
  compute_terminal_values terminal_values
    { successes := succ
      failures := fail
      success_rate := 100 * ((succ : ℚ) / ((succ : ℚ) + (fail : ℚ))) }

/-- Function `swr::simulation` together with the process-wide trial counter
(`simulations` in the anonymous namespace, read by
`swr::simulations_ran`): the counter is passed in and returned increased
by the number of trials run; the results never depend on it. -/
def simulation_with_counter (n : ℕ) (portfolio inflation_data : ℕ → ℚ)
    (values : ℕ → ℕ → ℚ) (years : ℕ) (wr : ℚ) (start_year end_year : ℕ)
    (monthly_wr : Bool) (rebalance : Rebalancing) (threshold : ℚ)
    (simulations : ℕ) : results × ℕ :=
  (simulation n portfolio inflation_data values years wr start_year end_year
      monthly_wr rebalance threshold,
    simulations +
      (terminal_values_list n portfolio inflation_data values years wr
          start_year end_year monthly_wr rebalance threshold).length)

/-- Invariant on the per-asset value vector used in the proofs: every
asset below `n` has a nonnegative value, and an asset with a zero target
allocation has a zero value. -/
def ValInv (n : ℕ) (portfolio v : ℕ → ℚ) : Prop :=
  ∀ i, i < n → 0 ≤ v i ∧ (portfolio i = 0 → v i = 0)

lemma sum_map_const_nat {α : Type} (l : List α) (c : ℕ) :
    (l.map fun _ => c).sum = c * l.length := by
  induction l with
  | nil => simp
  | cons x xs ih => simp [ih]; ring

lemma sum_ite_last : ∀ (n a em : ℕ), 1 ≤ n →
    ((List.range' (a + 1) n).map fun y => if y = a + n then em else 12).sum =
      12 * (n - 1) + em := by
  intro n
  induction n with
  | zero => omega
  | succ k ih =>
    intro a em _
    by_cases hk : k = 0
    · subst hk
      simp [List.range']
    · rw [List.range'_succ]
      simp only [List.map_cons, List.sum_cons]
      rw [if_neg (by omega : ¬ a + 1 = a + (k + 1))]
      have hh : a + (k + 1) = (a + 1) + k := by omega
      rw [hh, ih (a + 1) em (by omega)]
      omega

lemma countP_isStep_year_events (cy cm ey em y : ℕ) :
    (year_events cy cm ey em y).countP Event.isStep =
      seg_last ey em y + 1 - seg_first cy cm y := by
  rw [year_events, List.countP_append, List.countP_map]
  have h1 : (List.range' (seg_first cy cm y)
      (seg_last ey em y + 1 - seg_first cy cm y)).countP
        (Event.isStep ∘ Event.step y) =
      (List.range' (seg_first cy cm y)
        (seg_last ey em y + 1 - seg_first cy cm y)).length := by
    apply List.countP_eq_length.mpr
    intro m _
    rfl
  rw [h1, List.length_range']
  simp [Event.isStep]

lemma countP_isYearEnd_year_events (cy cm ey em y : ℕ) :
    (year_events cy cm ey em y).countP Event.isYearEnd = 1 := by
  rw [year_events, List.countP_append, List.countP_map]
  have h1 : (List.range' (seg_first cy cm y)
      (seg_last ey em y + 1 - seg_first cy cm y)).countP
        (Event.isYearEnd ∘ Event.step y) = 0 := by
    apply List.countP_eq_zero.mpr
    intro m _
    simp [Function.comp, Event.isYearEnd]
  rw [h1]
  simp [Event.isYearEnd]

lemma countP_step_trial_events (cy cm years : ℕ) (hy : 1 ≤ years)
    (hcm1 : 1 ≤ cm) (hcm2 : cm ≤ 12) :
    (trial_events cy cm years).countP Event.isStep = years * 12 := by
  rw [trial_events, List.countP_flatMap]
  have hmap : (List.range'
        cy (trial_end_year cy cm years + 1 - cy)).map
        (List.countP Event.isStep ∘
          year_events cy cm (trial_end_year cy cm years)
            (trial_end_month cm years)) =
      (List.range' cy (trial_end_year cy cm years + 1 - cy)).map
        (fun y => seg_last (trial_end_year cy cm years)
          (trial_end_month cm years) y + 1 - seg_first cy cm y) := by
    apply List.map_congr_left
    intro y _
    exact countP_isStep_year_events _ _ _ _ _
  rw [hmap]
  rcases Nat.lt_or_ge cm 2 with hcm | hcm
  · -- current_month = 1: the trial covers exactly `years` calendar years
    have hcm0 : cm = 1 := by omega
    subst hcm0
    have hey : trial_end_year cy 1 years = cy + (years - 1) := by
      rw [trial_end_year]
      omega
    have hem : trial_end_month 1 years = 12 := by
      rw [trial_end_month]
      omega
    rw [hey, hem]
    have hlen : cy + (years - 1) + 1 - cy = years := by omega
    rw [hlen]
    have hconst : (List.range' cy years).map
        (fun y => seg_last (cy + (years - 1)) 12 y + 1 - seg_first cy 1 y) =
        (List.range' cy years).map (fun _ => 12) := by
      apply List.map_congr_left
      intro y _
      rw [seg_last, seg_first]
      split <;> split <;> omega
    rw [hconst, sum_map_const_nat, List.length_range']
    ring
  · -- current_month ≥ 2: the trial spans `years + 1` calendar years
    have hey : trial_end_year cy cm years = cy + years := by
      rw [trial_end_year]
      omega
    have hem : trial_end_month cm years = cm - 1 := by
      rw [trial_end_month]
      omega
    rw [hey, hem]
    have hlen : cy + years + 1 - cy = years + 1 := by omega
    rw [hlen, List.range'_succ]
    simp only [List.map_cons, List.sum_cons]
    have hhead : seg_last (cy + years) (cm - 1) cy + 1 - seg_first cy cm cy =
        13 - cm := by
      rw [seg_last, seg_first]
      rw [if_neg (by omega : ¬ cy = cy + years), if_pos rfl]
    rw [hhead]
    have htail : (List.range' (cy + 1) years).map
        (fun y => seg_last (cy + years) (cm - 1) y + 1 - seg_first cy cm y) =
        (List.range' (cy + 1) years).map
          (fun y => if y = cy + years then cm - 1 else 12) := by
      apply List.map_congr_left
      intro y hy2
      rw [List.mem_range'] at hy2
      obtain ⟨i, _, rfl⟩ := hy2
      rw [seg_last, seg_first, if_neg (by omega : ¬ cy + 1 + 1 * i = cy)]
      split <;> omega
    rw [htail, sum_ite_last years cy (cm - 1) hy]
    omega

lemma countP_yearEnd_trial_events (cy cm years : ℕ) :
    (trial_events cy cm years).countP Event.isYearEnd =
      trial_end_year cy cm years + 1 - cy := by
  rw [trial_events, List.countP_flatMap]
  have hmap : (List.range'
        cy (trial_end_year cy cm years + 1 - cy)).map
        (List.countP Event.isYearEnd ∘
          year_events cy cm (trial_end_year cy cm years)
            (trial_end_month cm years)) =
      (List.range' cy (trial_end_year cy cm years + 1 - cy)).map
        (fun _ => 1) := by
    apply List.map_congr_left
    intro y _
    exact countP_isYearEnd_year_events _ _ _ _ _
  rw [hmap, sum_map_const_nat, List.length_range']
  ring

lemma countP_pos_split (l : List ℚ) :
    (l.countP fun v => decide (0 < v)) + (l.countP fun v => !decide (0 < v)) =
      l.length := by
  induction l with
  | nil => simp
  | cons x xs ih =>
    simp only [List.countP_cons, List.length_cons]
    cases hd : decide (0 < x) <;> simp [hd] <;> omega

lemma terminal_values_list_length (n : ℕ) (portfolio inflation_data : ℕ → ℚ)
    (values : ℕ → ℕ → ℚ) (years : ℕ) (wr : ℚ) (start_year end_year : ℕ)
    (monthly_wr : Bool) (rebalance : Rebalancing) (threshold : ℚ) :
    (terminal_values_list n portfolio inflation_data values years wr start_year
        end_year monthly_wr rebalance threshold).length =
      12 * (end_year - years + 1 - start_year) := by
  rw [terminal_values_list, List.length_flatMap]
  have hmap : ∀ (f : ℕ → ℕ → ℚ) (cy : ℕ),
      (List.length ∘ fun cy => (List.range' 1 12).map (f cy)) cy = 12 := by
    intro f cy
    simp
  rw [List.map_congr_left fun cy _ => hmap (fun cy cm =>
    run_trial n portfolio inflation_data values years wr rebalance threshold
      monthly_wr cy cm) cy]
  rw [sum_map_const_nat, List.length_range']

lemma simulation_successes (n : ℕ) (portfolio inflation_data : ℕ → ℚ)
    (values : ℕ → ℕ → ℚ) (years : ℕ) (wr : ℚ) (start_year end_year : ℕ)
    (monthly_wr : Bool) (rebalance : Rebalancing) (threshold : ℚ) :
    (simulation n portfolio inflation_data values years wr start_year end_year
        monthly_wr rebalance threshold).successes =
      (terminal_values_list n portfolio inflation_data values years wr
          start_year end_year monthly_wr rebalance threshold).countP
        fun v => decide (0 < v) := rfl

lemma simulation_failures (n : ℕ) (portfolio inflation_data : ℕ → ℚ)
    (values : ℕ → ℕ → ℚ) (years : ℕ) (wr : ℚ) (start_year end_year : ℕ)
    (monthly_wr : Bool) (rebalance : Rebalancing) (threshold : ℚ) :
    (simulation n portfolio inflation_data values years wr start_year end_year
        monthly_wr rebalance threshold).failures =
      (terminal_values_list n portfolio inflation_data values years wr
          start_year end_year monthly_wr rebalance threshold).countP
        fun v => !decide (0 < v) := rfl

/-- Claim C3: for every valid configuration
(`start_year + years ≤ end_year`), the simulation runs one trial per
start month from start_year/month 1 through month 12 of
`end_year - years`, and every trial is classified as exactly one success
or failure, so `successes + failures = 12 * (end_year - years - start_year + 1)`. -/
theorem C3_success_failure_count (n : ℕ) (portfolio inflation_data : ℕ → ℚ)
    (values : ℕ → ℕ → ℚ) (years : ℕ) (wr : ℚ) (start_year end_year : ℕ)
    (monthly_wr : Bool) (rebalance : Rebalancing) (threshold : ℚ)
    (h : start_year + years ≤ end_year) :
    (simulation n portfolio inflation_data values years wr start_year end_year
        monthly_wr rebalance threshold).successes +
      (simulation n portfolio inflation_data values years wr start_year
          end_year monthly_wr rebalance threshold).failures =
      12 * (end_year - years - start_year + 1) := by
  rw [simulation_successes, simulation_failures, countP_pos_split,
    terminal_values_list_length]
  congr 1
  omega

/-- Witness for C3 at a concrete configuration: one asset, horizon 1
year over [1, 2], which yields 12 trials. -/
theorem C3_success_failure_count_witness :
    (simulation 1 (fun _ => 100) (fun _ => 1) (fun _ _ => 1) 1 4 1 2 true
        Rebalancing.NONE 0).successes +
      (simulation 1 (fun _ => 100) (fun _ => 1) (fun _ _ => 1) 1 4 1 2 true
          Rebalancing.NONE 0).failures = 12 * (2 - 1 - 1 + 1) :=
  C3_success_failure_count 1 (fun _ => 100) (fun _ => 1) (fun _ _ => 1) 1 4 1 2
    true Rebalancing.NONE 0 (by norm_num)

/-- Claim C4: with the end-(year, month) integer arithmetic of
simulation.cpp, a trial with horizon `years ≥ 1` starting in month
1..12 executes exactly `years * 12` monthly iterations. -/
theorem C4_monthly_iteration_count (cy cm years : ℕ) (hy : 1 ≤ years)
    (h1 : 1 ≤ cm) (h2 : cm ≤ 12) :
    (trial_events cy cm years).countP Event.isStep = years * 12 := by
  rw [countP_step_trial_events cy cm years hy h1 h2]

/-- Witness for C4: a 2-year trial starting in July 1900 has 24 monthly
iterations. -/
theorem C4_monthly_iteration_count_witness :
    (trial_events 1900 7 2).countP Event.isStep = 2 * 12 :=
  C4_monthly_iteration_count 1900 7 2 (by norm_num) (by norm_num) (by norm_num)

/-- Counterexample for C1 as stated: in annual withdrawal mode a trial
performs one annual withdrawal per year-boundary event; a 1-year trial
starting in July 1900 has 2 year-boundary events, not 1. -/
theorem C1_counterexample :
    ¬ ((trial_events 1900 7 1).countP Event.isYearEnd = 1) := by
  rw [countP_yearEnd_trial_events, trial_end_year]
  omega

/-- Claim C1 amended: the yearly-boundary actions (YEARLY rebalancing
and, in annual mode, the full annual withdrawal) run once after each
calendar-year segment of the trial — including after the partial first
calendar year of a mid-year start — so a trial of `years` years performs
`years` year-boundary actions when it starts in month 1 and `years + 1`
when it starts in months 2..12. -/
theorem C1_year_boundary_count (cy cm years : ℕ) (hy : 1 ≤ years)
    (h1 : 1 ≤ cm) (h2 : cm ≤ 12) :
    (trial_events cy cm years).countP Event.isYearEnd =
      if cm = 1 then years else years + 1 := by
  rw [countP_yearEnd_trial_events, trial_end_year]
  by_cases hc : cm = 1
  · subst hc
    rw [if_pos rfl]
    omega
  · rw [if_neg hc]
    omega

/-- Witness for C1 (amended): a 2-year trial starting in January has
exactly 2 year-boundary events. -/
theorem C1_year_boundary_count_witness :
    (trial_events 1950 1 2).countP Event.isYearEnd =
      if (1 : ℕ) = 1 then 2 else 2 + 1 :=
  C1_year_boundary_count 1950 1 2 (by norm_num) (by norm_num) (by norm_num)

/-- Counterexample for C2 as stated: for a trial starting in month 12 of
1900, the cursor is positioned at January of 1900 itself (linear index
22800), not at the month following the start month (January 1901, index
22812). -/
theorem C2_counterexample :
    ¬ (trial_cursor_start 1900 12 = monthIdx 1900 12 + 1) := by
  rw [trial_cursor_start, get_start_index, monthIdx, monthIdx]
  omega

/-- Claim C2 amended: the return and inflation cursors start at the
month immediately following the trial's start month for start months
1..11; for a trial starting in month 12 they start at January of the
same year (11 months before the start month), because the code passes
`(current_month % 12) + 1` without incrementing the year. -/
theorem C2_cursor_position (cy cm : ℕ) (h1 : 1 ≤ cm) (h2 : cm ≤ 12) :
    trial_cursor_start cy cm =
      if cm = 12 then monthIdx cy 1 else monthIdx cy cm + 1 := by
  simp only [trial_cursor_start, get_start_index, monthIdx]
  by_cases hc : cm = 12
  · subst hc
    rw [if_pos rfl]
  · rw [if_neg hc]
    omega

/-- Witness for C2 (amended): a trial starting in May 1900 has its
cursors at June 1900. -/
theorem C2_cursor_position_witness :
    trial_cursor_start 1900 5 =
      if (5 : ℕ) = 12 then monthIdx 1900 1 else monthIdx 1900 5 + 1 :=
  C2_cursor_position 1900 5 (by norm_num) (by norm_num)

/-- Counterexample for C5 as stated: the MONTHLY fee multiplication is
not by `1 - 0.005` (a 0.5% cost); on an asset worth 1000 it leaves
999.95, not 995. -/
theorem C5_counterexample :
    ¬ (pay_fees monthly_rebalancing_cost (fun _ => (1000 : ℚ)) 0 =
        1000 * (1 - 5 / 1000)) := by
  intro h
  simp only [pay_fees, monthly_rebalancing_cost] at h
  norm_num at h

/-- Claim C5 amended: the rebalancing costs are stored in percent and
divided by 100 when applied, so every rebalancing fee multiplies each
asset's value by `1 - 0.00005` (MONTHLY, a 0.005% cost) or `1 - 0.0001`
(YEARLY and THRESHOLD, a 0.01% cost). -/
theorem C5_fee_factors (v : ℕ → ℚ) (i : ℕ) :
    pay_fees monthly_rebalancing_cost v i = v i * (1 - 5 / 100000) ∧
    pay_fees yearly_rebalancing_cost v i = v i * (1 - 1 / 10000) ∧
    pay_fees threshold_rebalancing_cost v i = v i * (1 - 1 / 10000) := by
  refine ⟨?_, ?_, ?_⟩ <;>
    simp only [pay_fees, monthly_rebalancing_cost, yearly_rebalancing_cost,
      threshold_rebalancing_cost] <;>
    norm_num

lemma length_insort (x : ℚ) (l : List ℚ) : (insort x l).length = l.length + 1 := by
  induction l with
  | nil => rfl
  | cons y ys ih =>
    rw [insort]
    split
    · simp
    · simp [ih]

lemma length_isort (l : List ℚ) : (isort l).length = l.length := by
  induction l with
  | nil => rfl
  | cons x xs ih =>
    rw [isort, length_insort, ih, List.length_cons]

lemma getElem?_isSome_iff (l : List ℚ) (i : ℕ) : l[i]?.isSome ↔ i < l.length := by
  rw [Option.isSome_iff_ne_none]
  simp [List.getElem?_eq_none_iff]

/-- Counterexample for C6 as stated: with n = 2 terminal values the
median access at index `n / 2 + 1 = 2` is already out of bounds, so the
claim's "in bounds for every n ≥ 2" fails. -/
theorem C6_counterexample :
    (compute_terminal_values [(1 : ℚ), 2] {}).tv_median = none := by
  rfl

/-- Claim C6 amended: `compute_terminal_values` sorts the n terminal
values ascending and reads the median at (0-based) index `n / 2 + 1` of
the sorted sequence; this access is out of bounds for every n ≤ 2
(including n = 2) and in bounds exactly when n ≥ 3; the minimum and
maximum are the sorted sequence's endpoints and the average is the
arithmetic mean. -/
theorem C6_median_bounds (tv : List ℚ) (res : results) :
    ((compute_terminal_values tv res).tv_median.isSome ↔ 3 ≤ tv.length) ∧
    (compute_terminal_values tv res).tv_median =
      (isort tv)[tv.length / 2 + 1]? ∧
    (compute_terminal_values tv res).tv_minimum = (isort tv).head? ∧
    (compute_terminal_values tv res).tv_maximum = (isort tv).getLast? ∧
    (compute_terminal_values tv res).tv_average =
      (if tv.length = 0 then none
        else some ((isort tv).sum / (tv.length : ℚ))) := by
  refine ⟨?_, ?_, rfl, rfl, ?_⟩
  · show ((isort tv)[(isort tv).length / 2 + 1]?).isSome ↔ 3 ≤ tv.length
    rw [getElem?_isSome_iff, length_isort]
    omega
  · show (isort tv)[(isort tv).length / 2 + 1]? = (isort tv)[tv.length / 2 + 1]?
    rw [length_isort]
  · show (if (isort tv).length = 0 then none
        else some ((isort tv).sum / ((isort tv).length : ℚ))) = _
    rw [length_isort]

/-- Claim C10: the Rebalancing formatter emits one of the four tokens
"none"/"monthly"/"yearly"/"threshold" (never the "Unknown rebalancing"
fallback), and `parse_rebalance` maps that token back to the original
variant. -/
theorem C10_rebalance_string_roundtrip (r : Rebalancing) :
    (rebalance_to_string r = "none" ∨ rebalance_to_string r = "monthly" ∨
      rebalance_to_string r = "yearly" ∨
      rebalance_to_string r = "threshold") ∧
    rebalance_to_string r ≠ "Unknown rebalancing" ∧
    parse_rebalance (rebalance_to_string r) = r := by
  cases r <;> exact ⟨by decide, by decide, by decide⟩

/-- Claim C9: `simulation` is deterministic — the `results` produced by
`simulation_with_counter` do not depend on the incoming value of the
process-wide trial counter, and the counter only ever increases across
successive invocations with the same inputs. -/
theorem C9_deterministic (n : ℕ) (portfolio inflation_data : ℕ → ℚ)
    (values : ℕ → ℕ → ℚ) (years : ℕ) (wr : ℚ) (start_year end_year : ℕ)
    (monthly_wr : Bool) (rebalance : Rebalancing) (threshold : ℚ) (c c₂ : ℕ) :
    (simulation_with_counter n portfolio inflation_data values years wr
        start_year end_year monthly_wr rebalance threshold c).1 =
      (simulation_with_counter n portfolio inflation_data values years wr
          start_year end_year monthly_wr rebalance threshold c₂).1 ∧
    c ≤ (simulation_with_counter n portfolio inflation_data values years wr
        start_year end_year monthly_wr rebalance threshold c).2 ∧
    (simulation_with_counter n portfolio inflation_data values years wr
        start_year end_year monthly_wr rebalance threshold c).2 ≤
      (simulation_with_counter n portfolio inflation_data values years wr
          start_year end_year monthly_wr rebalance threshold
          ((simulation_with_counter n portfolio inflation_data values years wr
              start_year end_year monthly_wr rebalance threshold c).2)).2 :=
  ⟨rfl, Nat.le_add_right _ _, Nat.le_add_right _ _⟩

lemma total_value_nonneg (n : ℕ) (v : ℕ → ℚ) (h : ∀ i, i < n → 0 ≤ v i) :
    0 ≤ total_value n v := by
  apply Finset.sum_nonneg
  intro i hi
  exact h i (Finset.mem_range.mp hi)

lemma valinv_total_nonneg (n : ℕ) (portfolio v : ℕ → ℚ)
    (h : ValInv n portfolio v) : 0 ≤ total_value n v :=
  total_value_nonneg n v fun i hi => (h i hi).1

lemma valinv_init (n : ℕ) (portfolio : ℕ → ℚ)
    (hw : ∀ i, i < n → 0 ≤ portfolio i) (wr : ℚ) (cy cm : ℕ) :
    ValInv n portfolio (init_state portfolio wr cy cm).current_values := by
  intro i hi
  constructor
  · exact mul_nonneg (by norm_num) (div_nonneg (hw i hi) (by norm_num))
  · intro h0
    show 1000 * (portfolio i / 100) = 0
    rw [h0]
    norm_num

lemma valinv_returns (n : ℕ) (portfolio : ℕ → ℚ) (values : ℕ → ℕ → ℚ)
    (rets : ℕ → ℕ) (hval : ∀ i k, i < n → 0 ≤ values i k) (v : ℕ → ℚ)
    (h : ValInv n portfolio v) :
    ValInv n portfolio fun i => v i * values i (rets i) := by
  intro i hi
  obtain ⟨h1, h2⟩ := h i hi
  refine ⟨mul_nonneg h1 (hval i _ hi), fun h0 => ?_⟩
  show v i * values i (rets i) = 0
  rw [h2 h0, zero_mul]

lemma valinv_pay_fees (n : ℕ) (portfolio : ℕ → ℚ) (cost : ℚ) (v : ℕ → ℚ)
    (hc : cost ≤ 100) (h : ValInv n portfolio v) :
    ValInv n portfolio (pay_fees cost v) := by
  intro i hi
  obtain ⟨h1, h2⟩ := h i hi
  constructor
  · apply mul_nonneg h1
    have hd : cost / 100 ≤ 1 := (div_le_one (by norm_num)).mpr hc
    linarith
  · intro h0
    show v i * (1 - cost / 100) = 0
    rw [h2 h0, zero_mul]

lemma valinv_reset (n : ℕ) (portfolio : ℕ → ℚ) (total : ℚ)
    (hw : ∀ i, i < n → 0 ≤ portfolio i) (ht : 0 ≤ total) :
    ValInv n portfolio (reset_values portfolio total) := by
  intro i hi
  constructor
  · exact mul_nonneg ht (div_nonneg (hw i hi) (by norm_num))
  · intro h0
    show total * (portfolio i / 100) = 0
    rw [h0]
    norm_num

lemma valinv_withdraw (n : ℕ) (portfolio : ℕ → ℚ) (total amount : ℚ)
    (v : ℕ → ℚ) (h : ValInv n portfolio v) :
    ValInv n portfolio (withdraw_values total amount v) := by
  intro i hi
  obtain ⟨_, h2⟩ := h i hi
  constructor
  · exact le_max_left 0 _
  · intro h0
    show max 0 (v i - v i / total * amount) = 0
    rw [h2 h0, zero_div, zero_mul, sub_zero]
    exact max_self 0

lemma valinv_ite (n : ℕ) (portfolio : ℕ → ℚ) (c : Prop) [Decidable c]
    (v w : ℕ → ℚ) (hv : ValInv n portfolio v) (hw2 : ValInv n portfolio w) :
    ValInv n portfolio (if c then v else w) := by
  split
  · exact hv
  · exact hw2

lemma valinv_month_core (n : ℕ) (portfolio : ℕ → ℚ)
    (hw : ∀ i, i < n → 0 ≤ portfolio i) (v0 : ℕ → ℚ)
    (h0 : ValInv n portfolio v0) (rebalance : Rebalancing) (threshold w1 : ℚ)
    (monthly_wr : Bool) :
    ValInv n portfolio
      (let v1 : ℕ → ℚ :=
        if rebalance = Rebalancing.MONTHLY then
          reset_values portfolio
            (total_value n (pay_fees monthly_rebalancing_cost v0))
        else v0
      let v2 : ℕ → ℚ :=
        if rebalance = Rebalancing.THRESHOLD then
          if threshold_trigger n portfolio threshold (total_value n v1) v1 then
            reset_values portfolio (total_value n v1)
          else v1
        else v1
      if monthly_wr then withdraw_values (total_value n v2) (w1 / 12) v2
      else v2) := by
  have h1 : ValInv n portfolio
      (if rebalance = Rebalancing.MONTHLY then
        reset_values portfolio
          (total_value n (pay_fees monthly_rebalancing_cost v0))
      else v0) := by
    apply valinv_ite
    · apply valinv_reset n portfolio _ hw
      apply valinv_total_nonneg n portfolio
      apply valinv_pay_fees n portfolio _ _ _ h0
      rw [monthly_rebalancing_cost]
      norm_num
    · exact h0
  have h2 : ValInv n portfolio
      (if rebalance = Rebalancing.THRESHOLD then
        if threshold_trigger n portfolio threshold
            (total_value n
              (if rebalance = Rebalancing.MONTHLY then
                reset_values portfolio
                  (total_value n (pay_fees monthly_rebalancing_cost v0))
              else v0))
            (if rebalance = Rebalancing.MONTHLY then
              reset_values portfolio
                (total_value n (pay_fees monthly_rebalancing_cost v0))
            else v0) then
          reset_values portfolio
            (total_value n
              (if rebalance = Rebalancing.MONTHLY then
                reset_values portfolio
                  (total_value n (pay_fees monthly_rebalancing_cost v0))
              else v0))
        else
          if rebalance = Rebalancing.MONTHLY then
            reset_values portfolio
              (total_value n (pay_fees monthly_rebalancing_cost v0))
          else v0
      else
        if rebalance = Rebalancing.MONTHLY then
          reset_values portfolio
            (total_value n (pay_fees monthly_rebalancing_cost v0))
        else v0) := by
    apply valinv_ite
    · apply valinv_ite
      · exact valinv_reset n portfolio _ hw (valinv_total_nonneg n portfolio _ h1)
      · exact h1
    · exact h1
  show ValInv n portfolio (if monthly_wr then _ else _)
  apply valinv_ite
  · exact valinv_withdraw n portfolio _ _ _ h2
  · exact h2

lemma valinv_month_step (n : ℕ) (portfolio inflation_data : ℕ → ℚ)
    (values : ℕ → ℕ → ℚ) (rebalance : Rebalancing) (threshold : ℚ)
    (monthly_wr : Bool) (s : TrialState)
    (hw : ∀ i, i < n → 0 ≤ portfolio i)
    (hval : ∀ i k, i < n → 0 ≤ values i k)
    (h : ValInv n portfolio s.current_values) :
    ValInv n portfolio
      (month_step n portfolio inflation_data values rebalance threshold
        monthly_wr s).current_values :=
  valinv_month_core n portfolio hw _
    (valinv_returns n portfolio values s.rets hval s.current_values h)
    rebalance threshold (s.withdrawal * inflation_data s.infl) monthly_wr

lemma valinv_year_end_step (n : ℕ) (portfolio : ℕ → ℚ)
    (rebalance : Rebalancing) (monthly_wr : Bool) (s : TrialState)
    (hw : ∀ i, i < n → 0 ≤ portfolio i)
    (h : ValInv n portfolio s.current_values) :
    ValInv n portfolio
      (year_end_step n portfolio rebalance monthly_wr s).current_values := by
  have h1 : ValInv n portfolio
      (if rebalance = Rebalancing.YEARLY then
        reset_values portfolio
          (total_value n (pay_fees yearly_rebalancing_cost s.current_values))
      else s.current_values) := by
    apply valinv_ite
    · apply valinv_reset n portfolio _ hw
      apply valinv_total_nonneg n portfolio
      apply valinv_pay_fees n portfolio _ _ _ h
      rw [yearly_rebalancing_cost]
      norm_num
    · exact h
  show ValInv n portfolio (if monthly_wr then _ else _)
  apply valinv_ite
  · exact h1
  · exact valinv_withdraw n portfolio _ _ _ h1

lemma valinv_do_event (n : ℕ) (portfolio inflation_data : ℕ → ℚ)
    (values : ℕ → ℕ → ℚ) (rebalance : Rebalancing) (threshold : ℚ)
    (monthly_wr : Bool) (s : TrialState) (e : Event)
    (hw : ∀ i, i < n → 0 ≤ portfolio i)
    (hval : ∀ i k, i < n → 0 ≤ values i k)
    (h : ValInv n portfolio s.current_values) :
    ValInv n portfolio
      (do_event n portfolio inflation_data values rebalance threshold
        monthly_wr s e).current_values := by
  cases e with
  | step y m =>
      exact valinv_month_step n portfolio inflation_data values rebalance
        threshold monthly_wr s hw hval h
  | yearEnd y =>
      exact valinv_year_end_step n portfolio rebalance monthly_wr s hw h

lemma valinv_foldl (n : ℕ) (portfolio inflation_data : ℕ → ℚ)
    (values : ℕ → ℕ → ℚ) (rebalance : Rebalancing) (threshold : ℚ)
    (monthly_wr : Bool)
    (hw : ∀ i, i < n → 0 ≤ portfolio i)
    (hval : ∀ i k, i < n → 0 ≤ values i k) :
    ∀ (l : List Event) (s : TrialState), ValInv n portfolio s.current_values →
      ValInv n portfolio
        ((l.foldl (do_event n portfolio inflation_data values rebalance
          threshold monthly_wr) s).current_values) := by
  intro l
  induction l with
  | nil => intro s hs; exact hs
  | cons e es ih =>
    intro s hs
    rw [List.foldl_cons]
    exact ih _ (valinv_do_event n portfolio inflation_data values rebalance
      threshold monthly_wr s e hw hval hs)

lemma asset_dev_check_one_false (n : ℕ) (portfolio : ℕ → ℚ)
    (hw : ∀ i, i < n → 0 ≤ portfolio i)
    (hsum : ∑ i in Finset.range n, portfolio i = 100) (v : ℕ → ℚ)
    (h : ValInv n portfolio v) (i : ℕ) (hi : i < n) :
    asset_dev_check 1 (portfolio i) (total_value n v) (v i) = false := by
  rw [asset_dev_check]
  by_cases ht : total_value n v = 0
  · rw [if_pos ht]
    have hz : v i = 0 := by
      have hall := (Finset.sum_eq_zero_iff_of_nonneg
        fun j hj => (h j (Finset.mem_range.mp hj)).1).mp ht
      exact hall i (Finset.mem_range.mpr hi)
    simp [hz]
  · rw [if_neg ht, decide_eq_false_iff_not]
    intro hge
    have htpos : 0 < total_value n v :=
      lt_of_le_of_ne (valinv_total_nonneg n portfolio v h) (Ne.symm ht)
    have ha0 : 0 ≤ portfolio i / 100 := div_nonneg (hw i hi) (by norm_num)
    have ha1 : portfolio i / 100 ≤ 1 := by
      rw [div_le_one (by norm_num : (0 : ℚ) < 100)]
      calc portfolio i ≤ ∑ j in Finset.range n, portfolio j :=
            Finset.single_le_sum (fun j hj => hw j (Finset.mem_range.mp hj))
              (Finset.mem_range.mpr hi)
        _ = 100 := hsum
    have hb0 : 0 ≤ v i / total_value n v :=
      div_nonneg (h i hi).1 htpos.le
    have hb1 : v i / total_value n v ≤ 1 := by
      rw [div_le_one htpos]
      exact Finset.single_le_sum (fun j hj => (h j (Finset.mem_range.mp hj)).1)
        (Finset.mem_range.mpr hi)
    have habs : |portfolio i / 100 - v i / total_value n v| ≤ 1 :=
      abs_le.mpr ⟨by linarith, by linarith⟩
    have heq : |portfolio i / 100 - v i / total_value n v| = 1 :=
      le_antisymm habs hge
    rcases (abs_eq (by norm_num : (0 : ℚ) ≤ 1)).mp heq with hc | hc
    · -- portfolio i / 100 = 1 and v i / total = 0
      have ha : portfolio i / 100 = 1 := by linarith
      have hb : v i / total_value n v = 0 := by linarith
      have hpi : portfolio i = 100 :=
        ((div_eq_one_iff_eq (by norm_num : (100 : ℚ) ≠ 0)).mp ha)
      have hothers : ∀ j, j < n → j ≠ i → portfolio j = 0 := by
        intro j hj hji
        have hsplit := Finset.add_sum_erase (Finset.range n) portfolio
          (Finset.mem_range.mpr hi)
        have hz : ∑ k in (Finset.range n).erase i, portfolio k = 0 := by
          rw [hsum] at hsplit
          rw [hpi] at hsplit
          linarith
        have hall := (Finset.sum_eq_zero_iff_of_nonneg fun k hk =>
          hw k (Finset.mem_range.mp (Finset.mem_of_mem_erase hk))).mp hz
        exact hall j (Finset.mem_erase.mpr ⟨hji, Finset.mem_range.mpr hj⟩)
      have htot : total_value n v = v i := by
        rw [total_value]
        apply Finset.sum_eq_single i
        · intro j hj hji
          exact (h j (Finset.mem_range.mp hj)).2
            (hothers j (Finset.mem_range.mp hj) hji)
        · intro hni
          exact absurd (Finset.mem_range.mpr hi) hni
      have hvi : v i ≠ 0 := by
        rw [htot] at ht
        exact ht
      have hbone : v i / total_value n v = 1 := by
        rw [htot]
        exact div_self hvi
      rw [hbone] at hb
      norm_num at hb
    · -- portfolio i / 100 = 0 and v i / total = 1
      have ha : portfolio i / 100 = 0 := by linarith
      have hb : v i / total_value n v = 1 := by linarith
      have hpi : portfolio i = 0 := by
        rcases div_eq_zero_iff.mp ha with hq | hq
        · exact hq
        · norm_num at hq
      have hvz : v i = 0 := (h i hi).2 hpi
      rw [hvz, zero_div] at hb
      norm_num at hb

lemma threshold_trigger_one_false (n : ℕ) (portfolio : ℕ → ℚ)
    (hw : ∀ i, i < n → 0 ≤ portfolio i)
    (hsum : ∑ i in Finset.range n, portfolio i = 100) (v : ℕ → ℚ)
    (h : ValInv n portfolio v) :
    threshold_trigger n portfolio 1 (total_value n v) v = false := by
  rw [threshold_trigger, List.any_eq_false]
  intro i hi
  rw [List.mem_range] at hi
  rw [asset_dev_check_one_false n portfolio hw hsum v h i hi]
  simp

lemma month_step_threshold_one (n : ℕ) (portfolio inflation_data : ℕ → ℚ)
    (values : ℕ → ℕ → ℚ) (monthly_wr : Bool) (s : TrialState)
    (hw : ∀ i, i < n → 0 ≤ portfolio i)
    (hsum : ∑ i in Finset.range n, portfolio i = 100)
    (hval : ∀ i k, i < n → 0 ≤ values i k)
    (h : ValInv n portfolio s.current_values) :
    month_step n portfolio inflation_data values Rebalancing.THRESHOLD 1
        monthly_wr s =
      month_step n portfolio inflation_data values Rebalancing.NONE 1
        monthly_wr s := by
  have h0 : ValInv n portfolio
      fun i => s.current_values i * values i (s.rets i) :=
    valinv_returns n portfolio values s.rets hval s.current_values h
  have htr := threshold_trigger_one_false n portfolio hw hsum _ h0
  simp [month_step, htr]

lemma year_end_step_threshold_one (n : ℕ) (portfolio : ℕ → ℚ)
    (monthly_wr : Bool) (s : TrialState) :
    year_end_step n portfolio Rebalancing.THRESHOLD monthly_wr s =
      year_end_step n portfolio Rebalancing.NONE monthly_wr s := by
  simp [year_end_step]

lemma do_event_threshold_one (n : ℕ) (portfolio inflation_data : ℕ → ℚ)
    (values : ℕ → ℕ → ℚ) (monthly_wr : Bool) (s : TrialState) (e : Event)
    (hw : ∀ i, i < n → 0 ≤ portfolio i)
    (hsum : ∑ i in Finset.range n, portfolio i = 100)
    (hval : ∀ i k, i < n → 0 ≤ values i k)
    (h : ValInv n portfolio s.current_values) :
    do_event n portfolio inflation_data values Rebalancing.THRESHOLD 1
        monthly_wr s e =
      do_event n portfolio inflation_data values Rebalancing.NONE 1
        monthly_wr s e := by
  cases e with
  | step y m =>
      exact month_step_threshold_one n portfolio inflation_data values
        monthly_wr s hw hsum hval h
  | yearEnd y =>
      exact year_end_step_threshold_one n portfolio monthly_wr s

lemma foldl_threshold_one (n : ℕ) (portfolio inflation_data : ℕ → ℚ)
    (values : ℕ → ℕ → ℚ) (monthly_wr : Bool)
    (hw : ∀ i, i < n → 0 ≤ portfolio i)
    (hsum : ∑ i in Finset.range n, portfolio i = 100)
    (hval : ∀ i k, i < n → 0 ≤ values i k) :
    ∀ (l : List Event) (s : TrialState), ValInv n portfolio s.current_values →
      l.foldl (do_event n portfolio inflation_data values
          Rebalancing.THRESHOLD 1 monthly_wr) s =
        l.foldl (do_event n portfolio inflation_data values
          Rebalancing.NONE 1 monthly_wr) s := by
  intro l
  induction l with
  | nil => intro s _; rfl
  | cons e es ih =>
    intro s hs
    rw [List.foldl_cons, List.foldl_cons,
      do_event_threshold_one n portfolio inflation_data values monthly_wr s e
        hw hsum hval hs]
    exact ih _ (valinv_do_event n portfolio inflation_data values
      Rebalancing.NONE 1 monthly_wr s e hw hval hs)

lemma run_trial_threshold_one (n : ℕ) (portfolio inflation_data : ℕ → ℚ)
    (values : ℕ → ℕ → ℚ) (years : ℕ) (wr : ℚ) (monthly_wr : Bool)
    (cy cm : ℕ)
    (hw : ∀ i, i < n → 0 ≤ portfolio i)
    (hsum : ∑ i in Finset.range n, portfolio i = 100)
    (hval : ∀ i k, i < n → 0 ≤ values i k) :
    run_trial n portfolio inflation_data values years wr
        Rebalancing.THRESHOLD 1 monthly_wr cy cm =
      run_trial n portfolio inflation_data values years wr
        Rebalancing.NONE 1 monthly_wr cy cm := by
  rw [run_trial, run_trial,
    foldl_threshold_one n portfolio inflation_data values monthly_wr hw hsum
      hval (trial_events cy cm years) (init_state portfolio wr cy cm)
      (valinv_init n portfolio hw wr cy cm)]

lemma terminal_values_threshold_one (n : ℕ) (portfolio inflation_data : ℕ → ℚ)
    (values : ℕ → ℕ → ℚ) (years : ℕ) (wr : ℚ) (start_year end_year : ℕ)
    (monthly_wr : Bool)
    (hw : ∀ i, i < n → 0 ≤ portfolio i)
    (hsum : ∑ i in Finset.range n, portfolio i = 100)
    (hval : ∀ i k, i < n → 0 ≤ values i k) :
    terminal_values_list n portfolio inflation_data values years wr start_year
        end_year monthly_wr Rebalancing.THRESHOLD 1 =
      terminal_values_list n portfolio inflation_data values years wr
        start_year end_year monthly_wr Rebalancing.NONE 1 := by
  rw [terminal_values_list, terminal_values_list]
  apply List.flatMap_congr
  intro cy _
  apply List.map_congr_left
  intro cm _
  exact run_trial_threshold_one n portfolio inflation_data values years wr
    monthly_wr cy cm hw hsum hval

/-- Claim C7: with THRESHOLD rebalancing and a threshold of 1.0, the
deviation test never triggers in any month of any trial (including when
assets are depleted), so no rebalancing fee is ever deducted and the
simulation's results coincide with those of a run with no rebalancing at
all.  Hypotheses: target allocations are nonnegative and sum to 100, and
the monthly return factors are nonnegative. -/
theorem C7_threshold_one_no_fee (n : ℕ) (portfolio inflation_data : ℕ → ℚ)
    (values : ℕ → ℕ → ℚ) (years : ℕ) (wr : ℚ) (start_year end_year : ℕ)
    (monthly_wr : Bool)
    (hw : ∀ i, i < n → 0 ≤ portfolio i)
    (hsum : ∑ i in Finset.range n, portfolio i = 100)
    (hval : ∀ i k, i < n → 0 ≤ values i k) :
    simulation n portfolio inflation_data values years wr start_year end_year
        monthly_wr Rebalancing.THRESHOLD 1 =
      simulation n portfolio inflation_data values years wr start_year
        end_year monthly_wr Rebalancing.NONE 1 := by
  have htvl := terminal_values_threshold_one n portfolio inflation_data values
    years wr start_year end_year monthly_wr hw hsum hval
  simp only [simulation, htvl]

/-- Witness for C7 at a concrete configuration: a single asset at weight
100 with flat unit returns and inflation. -/
theorem C7_threshold_one_no_fee_witness :
    simulation 1 (fun _ => 100) (fun _ => 1) (fun _ _ => 1) 1 4 1 2 true
        Rebalancing.THRESHOLD 1 =
      simulation 1 (fun _ => 100) (fun _ => 1) (fun _ _ => 1) 1 4 1 2 true
        Rebalancing.NONE 1 :=
  C7_threshold_one_no_fee 1 (fun _ => 100) (fun _ => 1) (fun _ _ => 1) 1 4 1 2
    true (fun i _ => by norm_num) (by simp) (fun i k _ => by norm_num)

/-- Claim C8: with nonnegative target allocations and nonnegative
monthly return factors, every per-asset value is ≥ 0 after every prefix
of every trial's event sequence (returns, rebalancing, withdrawal —
withdrawals floor each asset at zero independently), and consequently
every terminal value is ≥ 0. -/
theorem C8_values_nonneg (n : ℕ) (portfolio inflation_data : ℕ → ℚ)
    (values : ℕ → ℕ → ℚ) (years : ℕ) (wr : ℚ) (start_year end_year : ℕ)
    (monthly_wr : Bool) (rebalance : Rebalancing) (threshold : ℚ)
    (hw : ∀ i, i < n → 0 ≤ portfolio i)
    (hval : ∀ i k, i < n → 0 ≤ values i k) :
    (∀ (l : List Event) (cy cm i : ℕ), i < n →
      0 ≤ (l.foldl (do_event n portfolio inflation_data values rebalance
          threshold monthly_wr) (init_state portfolio wr cy cm)).current_values
        i) ∧
    ∀ t ∈ terminal_values_list n portfolio inflation_data values years wr
        start_year end_year monthly_wr rebalance threshold, 0 ≤ t := by
  constructor
  · intro l cy cm i hi
    exact ((valinv_foldl n portfolio inflation_data values rebalance threshold
      monthly_wr hw hval l (init_state portfolio wr cy cm)
      (valinv_init n portfolio hw wr cy cm)) i hi).1
  · intro t ht
    rw [terminal_values_list, List.mem_flatMap] at ht
    obtain ⟨cy, _, hmem⟩ := ht
    rw [List.mem_map] at hmem
    obtain ⟨cm, _, rfl⟩ := hmem
    rw [run_trial]
    apply total_value_nonneg
    intro i hi
    exact ((valinv_foldl n portfolio inflation_data values rebalance threshold
      monthly_wr hw hval (trial_events cy cm years)
      (init_state portfolio wr cy cm)
      (valinv_init n portfolio hw wr cy cm)) i hi).1

/-- Witness for C8 at a concrete configuration: after a full 1-year
trial starting July 1901 with flat unit returns, the single asset's
value is nonnegative. -/
theorem C8_values_nonneg_witness :
    0 ≤ ((trial_events 1901 7 1).foldl
        (do_event 1 (fun _ => 100) (fun _ => 1) (fun _ _ => 1)
          Rebalancing.MONTHLY 0 true)
        (init_state (fun _ => 100) 4 1901 7)).current_values 0 :=
  (C8_values_nonneg 1 (fun _ => 100) (fun _ => 1) (fun _ _ => 1) 1 4 1901 1902
      true Rebalancing.MONTHLY 0 (fun i _ => by norm_num)
      (fun i k _ => by norm_num)).1 (trial_events 1901 7 1) 1901 7 0
    (by norm_num)
